import Mathlib

/-!
Verification development for the truck.api marketplace backend.

This file gives a shallow embedding of the quotation-negotiation workflow
(`quotations/validators.py`, `quotations/services.py`), the order-conversion
services (`orders/services.py`), the delivery-verification endpoint
(`orders/api/views.py`) and the route-based price-band generation
(`quotations/api/route_views.py`, `quotations/models.py`), together with
theorems about them.

Conventions of the embedding:
* Python `Decimal` amounts are modelled as `Rat` (all the arithmetic the code
  performs on them - sums, products, division by 100/500/2 - is exact decimal
  arithmetic, which `Rat` models exactly).
* `timezone.now()` is modelled by an explicit `Clock` argument carrying the
  absolute time in hours since an arbitrary epoch (`abs`) and the UTC hour of
  day (`hour`), the two facets of the clock the code reads.
* A Python function returning `Tuple[bool, Optional[str]]` (valid flag plus
  error message) is modelled as `Option VErr`: `none` is `(True, None)`,
  `some e` is `(False, message e)`; every `False` branch in the source carries
  a distinct message, so the encoding is faithful.
* Functions that `raise ValidationError` are modelled with `Except` / an
  explicit error component; Django's `@transaction.atomic` is modelled by
  returning the caller's state unchanged in the error case.
* Database rows are explicit record values; a queryset ordered by
  `created_at` is a list in chronological order (Python `.last()` is
  `List.getLast?`, appending a new row is `++ [row]`).
-/

namespace TruckApi

/-- Actor roles that participate in negotiations (`NegotiationInitiator`
in `quotations/enums.py`: 'customer' / 'vendor'). -/
inductive Role where
  | customer
  | vendor
  deriving DecidableEq, Repr

/-- `QuotationStatus` from `quotations/enums.py`. -/
inductive QStatus where
  | pending
  | sent
  | negotiating
  | accepted
  | rejected
  | expired
  deriving DecidableEq, Repr

/-- One `QuotationNegotiation` row (fields used by the business logic). -/
structure Negotiation where
  initiated_by : Role
  proposed_amount : Rat
  deriving DecidableEq, Repr

/-- A `Quotation` row together with its related rows, as read by the
validators and services: `quotation_request.customer` and `vendor` are user
ids, `negotiations` is the related queryset ordered by `created_at`. -/
structure Quotation where
  id : Nat
  customer : Nat
  vendor : Nat
  total_amount : Rat
  status : QStatus
  created_at : Rat
  validity_hours : Rat
  negotiations : List Negotiation
  deriving DecidableEq, Repr

/-- The two facets of `timezone.now()` that the code reads: absolute time in
hours (for expiry and the 30-minute window) and the UTC hour of day (for the
business-hours check). -/
structure Clock where
  abs : Rat
  hour : Nat
  deriving DecidableEq, Repr

/-- Error messages returned by the validators and services (each constructor
stands for one distinct message string in the source). -/
inductive VErr where
  | maxRounds
  | consecutive
  | businessHours
  | wait30
  | reduceLimit
  | increaseLimit
  | floor50
  | notNegotiable
  | quotationExpired
  | invalidTransition
  | onlyCustomerAccepts
  | notYourQuotation
  | badOrderStatus
  | orderExists
  | orderQuotationExpired
  deriving DecidableEq, Repr

/-- `QuotationBusinessValidator.validate_negotiation_sequence`
(`quotations/validators.py` lines 141-181).  Rule 1: at most 10 negotiations;
Rule 2: the latest negotiation may not have been initiated by the same role;
Rule 3: business hours 9-21 IST with `ist_hour = (now.hour + 5) % 24`;
Rule 4: a customer may not negotiate within 30 minutes (= 1/2 hour) of the
quotation's creation when there are no negotiations yet. -/
def validate_negotiation_sequence (q : Quotation) (user_role : Role) (now : Clock) :
    Option VErr :=
  if 10 ≤ q.negotiations.length then some .maxRounds
  else if q.negotiations.getLast?.map Negotiation.initiated_by = some user_role then
    some .consecutive
  else if (now.hour + 5) % 24 < 9 ∨ 21 < (now.hour + 5) % 24 then some .businessHours
  else if user_role = .customer ∧ q.negotiations.length = 0 ∧
      now.abs - q.created_at < 1 / 2 then some .wait30
  else none

/-- `QuotationBusinessValidator.validate_negotiation_amount_advanced`
(`quotations/validators.py` lines 183-222).  Rule 1 (only when a prior
negotiation exists): the proposal may not be below 85% of the latest offer,
and a *customer* proposal may not exceed 115% of it; the commented-out
Rule 2 of the source is omitted; Rule 3: the proposal may not be below 50%
of the quotation's `total_amount`. -/
def validate_negotiation_amount_advanced (q : Quotation) (proposed_amount : Rat)
    (user_role : Role) : Option VErr :=
  match q.negotiations.getLast? with
  | some latest =>
      if proposed_amount < latest.proposed_amount * (100 - 15) / 100 then
        some .reduceLimit
      else if latest.proposed_amount * (100 + 15) / 100 < proposed_amount ∧
          user_role = .customer then
        some .increaseLimit
      else if proposed_amount < q.total_amount * (1 / 2) then some .floor50
      else none
  | none =>
      if proposed_amount < q.total_amount * (1 / 2) then some .floor50
      else none

/-- The `allowed_transitions` table of
`QuotationStatusValidator.can_transition_status`
(`quotations/validators.py` lines 242-265). -/
def allowed_transitions : QStatus → List QStatus
  | .pending => [.negotiating, .accepted, .rejected, .expired]
  | .sent => [.negotiating, .accepted, .rejected, .expired]
  | .negotiating => [.accepted, .rejected, .expired]
  | .accepted => []
  | .rejected => []
  | .expired => []

/-- `QuotationStatusValidator.can_transition_status`
(`quotations/validators.py` lines 228-276): table lookup plus the rule that
only a customer may move a quotation to `accepted`. -/
def can_transition_status (from_status to_status : QStatus) (user_role : Role) :
    Option VErr :=
  if to_status ∉ allowed_transitions from_status then some .invalidTransition
  else if to_status = .accepted ∧ user_role ≠ .customer then some .onlyCustomerAccepts
  else none

/-- `QuotationStatusValidator.validate_quotation_expiry`
(`quotations/validators.py` lines 278-286): final statuses count as expired,
otherwise the quotation is expired once `now` passes
`created_at + validity_hours`. -/
def validate_quotation_expiry (q : Quotation) (now : Clock) : Bool :=
  if q.status = .accepted ∨ q.status = .rejected ∨ q.status = .expired then true
  else decide (q.created_at + q.validity_hours < now.abs)

/-- `NegotiationService.can_negotiate` (`quotations/services.py` lines
268-288): the quotation must be in a negotiable status, not expired, and the
sequence rules must pass. -/
def can_negotiate (q : Quotation) (user_role : Role) (now : Clock) : Option VErr :=
  if ¬(q.status = .pending ∨ q.status = .sent ∨ q.status = .negotiating) then
    some .notNegotiable
  else if validate_quotation_expiry q now then some .quotationExpired
  else validate_negotiation_sequence q user_role now

/-- `NegotiationService.create_negotiation` (`quotations/services.py` lines
290-327): check `can_negotiate`, then the amount rules, then create the
negotiation row and set the quotation's status to `negotiating`.  (The
invalid-role branch of the source is unrepresentable here because `Role` has
only the two constructors the callers pass.) -/
def create_negotiation (q : Quotation) (user_role : Role) (proposed_amount : Rat)
    (now : Clock) : Except VErr (Quotation × Negotiation) :=
  match can_negotiate q user_role now with
  | some e => .error e
  | none =>
      match validate_negotiation_amount_advanced q proposed_amount user_role with
      | some e => .error e
      | none =>
          let negotiation : Negotiation :=
            { initiated_by := user_role, proposed_amount := proposed_amount }
          .ok ({ q with negotiations := q.negotiations ++ [negotiation],
                        status := .negotiating }, negotiation)

/-- `QuotationService.create_initial_negotiation` (`quotations/services.py`
lines 222-262).  A provided, *truthy* (non-zero) customer amount is validated
(status transition to `negotiating` as customer, then the amount rules) and
recorded, moving the quotation to `negotiating`; otherwise a negotiation at
the vendor's own `total_amount` is recorded and the status is unchanged. -/
def create_initial_negotiation (q : Quotation) (customer_proposed_amount : Option Rat) :
    Except VErr (Quotation × Negotiation) :=
  match customer_proposed_amount with
  | some a =>
      if a = 0 then
        -- Python truthiness: Decimal('0') takes the no-proposal branch.
        let n : Negotiation := { initiated_by := .customer, proposed_amount := q.total_amount }
        .ok ({ q with negotiations := q.negotiations ++ [n] }, n)
      else
        match can_transition_status q.status .negotiating .customer with
        | some e => .error e
        | none =>
            match validate_negotiation_amount_advanced q a .customer with
            | some e => .error e
            | none =>
                let n : Negotiation := { initiated_by := .customer, proposed_amount := a }
                .ok ({ q with negotiations := q.negotiations ++ [n],
                              status := .negotiating }, n)
  | none =>
      let n : Negotiation := { initiated_by := .customer, proposed_amount := q.total_amount }
      .ok ({ q with negotiations := q.negotiations ++ [n] }, n)

/-- `QuotationStatusService.update_status` (`quotations/services.py` lines
333-355): validate the transition, then set the new status (the returned pair
is the `old_status`/`new_status` of the result dict). -/
def update_status (q : Quotation) (new_status : QStatus) (user_role : Role) :
    Except VErr (Quotation × QStatus × QStatus) :=
  match can_transition_status q.status new_status user_role with
  | some e => .error e
  | none => .ok ({ q with status := new_status }, q.status, new_status)

/-! ### Orders (`orders/services.py`, `orders/models.py`) -/

/-- `Truck.AVAILABILITY_CHOICES` from `trucks/models.py`. -/
inductive AvailStatus where
  | available
  | busy
  | maintenance
  | inactive
  deriving DecidableEq, Repr

/-- A `Truck` row (the fields touched by the order services). -/
structure Truck where
  id : Nat
  availability_status : AvailStatus
  deriving DecidableEq, Repr

/-- A `Driver` row (the fields touched by the order services). -/
structure Driver where
  id : Nat
  is_available : Bool
  deriving DecidableEq, Repr

/-- `Order.STATUS_CHOICES` from `orders/models.py`. -/
inductive OStatus where
  | created
  | confirmed
  | driver_assigned
  | pickup
  | picked_up
  | in_transit
  | delivered
  | completed
  | cancelled
  deriving DecidableEq, Repr

/-- An `Order` row (the fields the claims are about).  `truck` and `driver`
are nullable foreign keys, modelled as optional ids. -/
structure Order where
  quotation_id : Nat
  customer : Nat
  vendor : Nat
  truck : Option Nat
  driver : Option Nat
  total_amount : Rat
  delivery_otp : Nat
  is_otp_verified : Bool
  status : OStatus
  is_active : Bool
  deriving DecidableEq, Repr

/-- An `OrderStatusHistory` row (`previous_status` is blank - `none` - for the
initial entry). -/
structure HistEntry where
  order_quotation_id : Nat
  previous_status : Option OStatus
  new_status : OStatus
  deriving DecidableEq, Repr

/-- The slice of database state the order-creation services read and write:
the quotation being converted, the order table, the truck table and the
status-history table. -/
structure OrderWorld where
  quotation : Quotation
  orders : List Order
  trucks : List Truck
  history : List HistEntry
  deriving DecidableEq, Repr

/-- The result dict of `OrderCreationService.create_order_from_quotation`. -/
structure OrderResult where
  order : Order
  delivery_otp : Nat
  truck_updated : Bool
  status_history_created : Bool
  deriving DecidableEq, Repr

/-- The result dict of `OrderCreationService.create_order_from_negotiation`
(the `create_order_from_quotation` result plus the negotiation metadata). -/
structure NegOrderResult where
  base : OrderResult
  original_amount : Rat
  final_amount : Rat
  savings : Rat
  negotiation_accepted : Bool
  deriving DecidableEq, Repr

/-- `OrderCreationService._validate_order_creation` (`orders/services.py`
lines 157-178): the user must be the quotation's customer or vendor, the
quotation must be `accepted` or `negotiating`, no order may already exist for
it (`hasattr(quotation, 'order')` on the one-to-one field), and the
quotation must still be inside its validity window. -/
def validate_order_creation (q : Quotation) (user : Nat) (orders : List Order)
    (now : Clock) : Option VErr :=
  if ¬(q.customer = user ∨ q.vendor = user) then some .notYourQuotation
  else if ¬(q.status = .accepted ∨ q.status = .negotiating) then some .badOrderStatus
  else if orders.any fun o => o.quotation_id = q.id then some .orderExists
  else if q.created_at + q.validity_hours < now.abs then some .orderQuotationExpired
  else none

/-- `OrderCreationService.create_order_from_quotation` (`orders/services.py`
lines 28-116), wrapped in `@transaction.atomic`: on a validation error the
world is returned unchanged.  The order is created with `truck=None`
("Truck will be assigned later during status updates"), amount copied from
the quotation, the generated OTP (`otp` stands for the value
`_generate_delivery_otp()` returned), status `created`, plus the initial
status-history entry; the `if order.truck:` branch then sets that truck busy
and reports `truck_updated`. -/
def create_order_from_quotation (w : OrderWorld) (user : Nat) (otp : Nat)
    (now : Clock) : OrderWorld × Except VErr OrderResult :=
  match validate_order_creation w.quotation user w.orders now with
  | some e => (w, .error e)
  | none =>
      let order : Order :=
        { quotation_id := w.quotation.id
          customer := w.quotation.customer
          vendor := w.quotation.vendor
          truck := none
          driver := none
          total_amount := w.quotation.total_amount
          delivery_otp := otp
          is_otp_verified := false
          status := .created
          is_active := true }
      let hist : HistEntry :=
        { order_quotation_id := w.quotation.id, previous_status := none,
          new_status := .created }
      let w2 : OrderWorld :=
        { w with orders := w.orders ++ [order], history := w.history ++ [hist] }
      match order.truck with
      | some tid =>
          ({ w2 with trucks := w2.trucks.map fun t =>
                if t.id = tid then { t with availability_status := .busy } else t },
           .ok { order := order, delivery_otp := otp, truck_updated := true,
                 status_history_created := true })
      | none =>
          (w2, .ok { order := order, delivery_otp := otp, truck_updated := false,
                     status_history_created := true })

/-- `OrderCreationService.create_order_from_negotiation` (`orders/services.py`
lines 118-155), `@transaction.atomic`: overwrite the quotation's
`total_amount` with the negotiated amount and set it `accepted`, create the
order from the updated quotation, and extend the result with the negotiation
metadata (`savings = original - proposed`).  If the inner creation fails the
transaction rolls the quotation update back: the original world is
returned. -/
def create_order_from_negotiation (w : OrderWorld) (neg : Negotiation)
    (user : Nat) (otp : Nat) (now : Clock) : OrderWorld × Except VErr NegOrderResult :=
  match create_order_from_quotation
      { w with quotation := { w.quotation with
          total_amount := neg.proposed_amount, status := .accepted } }
      user otp now with
  | (w3, .ok res) =>
      (w3, .ok { base := res
                 original_amount := w.quotation.total_amount
                 final_amount := neg.proposed_amount
                 savings := w.quotation.total_amount - neg.proposed_amount
                 negotiation_accepted := true })
  | (_, .error e) => (w, .error e)

/-- `QuotationStatusService.accept_negotiation` (`quotations/services.py`
lines 385-422): anyone who is the quotation's customer *or* vendor may
accept; the order is created via `create_order_from_negotiation` and the
quotation's status is then set to `accepted`.  `neg` is a negotiation of
`w.quotation` (`negotiation.quotation`). -/
def accept_negotiation (w : OrderWorld) (neg : Negotiation) (user : Nat)
    (otp : Nat) (now : Clock) : OrderWorld × Except VErr NegOrderResult :=
  if ¬(w.quotation.customer = user ∨ w.quotation.vendor = user) then
    (w, .error .notYourQuotation)
  else
    match create_order_from_negotiation w neg user otp now with
    | (w2, .ok res) =>
        ({ w2 with quotation := { w2.quotation with status := .accepted } }, .ok res)
    | (w2, .error e) => (w2, .error e)

/-! ### Delivery verification (`orders/api/views.py`, `DeliveryVerificationView.post`) -/

/-- Outcome of the delivery-verification endpoint: 404 when the order lookup
(`id`, `customer=request.user`, `status='delivered'`, `is_active=True`)
fails, 400 on a wrong OTP, a 500 `AttributeError` when `order.truck` is
`None` (the view dereferences it unconditionally *after* saving the order),
and 200 on success. -/
inductive DVResp where
  | notFound
  | invalidOtp
  | attributeCrash
  | ok
  deriving DecidableEq, Repr

/-- The state the delivery-verification endpoint touches: the order row, its
truck and driver rows (targets of the nullable foreign keys), and the
status-history table. -/
structure DeliveryCtx where
  order : Order
  truck : Option Truck
  driver : Option Driver
  history : List HistEntry
  deriving DecidableEq, Repr

/-- `DeliveryVerificationView.post` (`orders/api/views.py` lines 275-332).
The order must match the lookup filters; a wrong OTP returns an error with
nothing written; otherwise the order is saved as verified + `completed`,
then the truck is set available (crashing if the order has none) and the
driver, when assigned, is set available, and a history entry is recorded. -/
def delivery_verification_post (s : DeliveryCtx) (user : Nat) (otp : Nat) :
    DeliveryCtx × DVResp :=
  if ¬(s.order.customer = user ∧ s.order.status = .delivered ∧ s.order.is_active = true) then
    (s, .notFound)
  else if s.order.delivery_otp ≠ otp then (s, .invalidOtp)
  else
    let o : Order := { s.order with is_otp_verified := true, status := .completed }
    match s.truck with
    | none => ({ s with order := o }, .attributeCrash)
    | some t =>
        let hist : HistEntry :=
          { order_quotation_id := o.quotation_id, previous_status := some .delivered,
            new_status := .completed }
        ({ order := o
           truck := some { t with availability_status := .available }
           driver := s.driver.map fun d => { d with is_available := true }
           history := s.history ++ [hist] }, .ok)

/-! ### Route-based price bands (`quotations/models.py`,
`quotations/api/route_views.py`) -/

/-- A `RoutePricing` row (one priced segment of a route), the fields read by
the enquiry matching and pricing code. -/
structure RouteSeg where
  truck_type : Nat
  from_city : String
  to_city : String
  base_price : Rat
  fuel_charges : Rat
  toll_charges : Rat
  loading_charges : Rat
  unloading_charges : Rat
  available_vehicles : Nat
  deriving DecidableEq, Repr

/-- A `Route` row with its related `stops` (their `stop_city` values) and
`pricing` segments. -/
structure Route where
  vendor : Nat
  origin_city : String
  destination_city : String
  stops : List String
  pricing : List RouteSeg
  estimated_duration_hours : Rat
  is_active : Bool
  deriving DecidableEq, Repr

/-- A `CustomerEnquiry` row (the fields the matching code reads). -/
structure Enquiry where
  truck_type : Nat
  number_of_vehicles : Nat
  pickup_city : String
  delivery_city : String
  deriving DecidableEq, Repr

/-- `route_type` values of the created price ranges. -/
inductive RouteType where
  | direct
  | via_stops
  | miscellaneous
  deriving DecidableEq, Repr

/-- `chance_of_getting_deal` values. -/
inductive Chance where
  | low
  | medium
  | high
  deriving DecidableEq, Repr

/-- One entry of the `matching_routes` list built by `find_matching_routes`. -/
structure RouteMatch where
  route : Route
  segment : RouteSeg
  route_type : RouteType
  deriving DecidableEq, Repr

/-- A `PriceRange` row as created by `create_route_based_price_ranges`. -/
structure PriceRange where
  min_price : Rat
  max_price : Rat
  recommended_price : Rat
  vehicles_available : Nat
  vendors_count : Nat
  chance_of_getting_deal : Chance
  route_type : RouteType
  estimated_duration_hours : Rat
  deriving DecidableEq, Repr

/-- `RoutePricing.get_total_price` (`quotations/models.py` lines 334-337). -/
def get_total_price (s : RouteSeg) : Rat :=
  s.base_price + s.fuel_charges + s.toll_charges + s.loading_charges +
    s.unloading_charges

/-- Does `needle` occur at the start of `hay`?  (Helper for Python's
substring operator.) -/
def startsWithSeg : List Char → List Char → Bool
  | [], _ => true
  | _ :: _, [] => false
  | a :: as, b :: bs => a = b && startsWithSeg as bs

/-- Does `needle` occur contiguously inside `hay`?  (Python's `in` on
strings.) -/
def containsSeg (needle : List Char) : List Char → Bool
  | [] => startsWithSeg needle []
  | c :: t => startsWithSeg needle (c :: t) || containsSeg needle t

/-- `str.lower()`. -/
def lowerChars (s : String) : List Char := s.toList.map Char.toLower

/-- `CustomerEnquiryCreateView.city_matches` (`route_views.py` lines
132-135): case-insensitive mutual-substring test against any city in the
list. -/
def city_matches (city1 : String) (city_list : List String) : Bool :=
  city_list.any fun c =>
    containsSeg (lowerChars city1) (lowerChars c) ||
      containsSeg (lowerChars c) (lowerChars city1)

/-- The per-segment match test inside `find_matching_routes` (`route_views.py`
lines 111-122): the pickup city must match the segment's `from_city` or the
route's `origin_city` or any stop city, and the delivery city must match the
segment's `to_city` or the route's `destination_city` or any stop city. -/
def segment_city_match (e : Enquiry) (r : Route) (s : RouteSeg) : Bool :=
  (city_matches e.pickup_city [s.from_city, r.origin_city] ||
      city_matches e.pickup_city r.stops) &&
    (city_matches e.delivery_city [s.to_city, r.destination_city] ||
      city_matches e.delivery_city r.stops)

/-- `CustomerEnquiryCreateView.find_matching_routes` (`route_views.py` lines
96-130).  The queryset keeps active routes having some pricing row with the
enquiry's truck type and enough available vehicles; for each such route the
segments of the enquiry's truck type are scanned and the first one matching
the cities is recorded (the loop `break`s after the first match). -/
def find_matching_routes (routes : List Route) (e : Enquiry) : List RouteMatch :=
  (routes.filter fun r =>
      r.is_active &&
        r.pricing.any fun s =>
          s.truck_type = e.truck_type ∧ e.number_of_vehicles ≤ s.available_vehicles
    ).filterMap fun r =>
      match (r.pricing.filter fun s => s.truck_type = e.truck_type).find?
          (fun s => segment_city_match e r s) with
      | some s =>
          some { route := r, segment := s,
                 route_type := if r.stops.length = 0 then .direct else .via_stops }
      | none => none

/-- Python's built-in `round` on an exact value: round half to even. -/
def pythonRound (q : Rat) : Int :=
  if q - ⌊q⌋ < 1 / 2 then ⌊q⌋
  else if 1 / 2 < q - ⌊q⌋ then ⌊q⌋ + 1
  else if ⌊q⌋ % 2 = 0 then ⌊q⌋ else ⌊q⌋ + 1

/-- `total_price = segment.get_total_price() * enquiry.number_of_vehicles`
(`route_views.py` line 144). -/
def total_price (e : Enquiry) (m : RouteMatch) : Rat :=
  get_total_price m.segment * (e.number_of_vehicles : Rat)

/-- `price_key = round(total_price / 500) * 500` (`route_views.py` line
147). -/
def price_key (e : Enquiry) (m : RouteMatch) : Int :=
  pythonRound (total_price e m / 500) * 500

/-- The keys of the `price_groups` dict in their insertion order (first
occurrence of each `price_key` in match order). -/
def group_keys (e : Enquiry) (ms : List RouteMatch) : List Int :=
  ms.foldl (fun acc m =>
    if price_key e m ∈ acc then acc else acc ++ [price_key e m]) []

/-- `min` of a nonempty Python list ( `[]` cannot occur: each group holds at
least the match that created it). -/
def listMin : List Rat → Rat
  | [] => 0
  | p :: ps => ps.foldl min p

/-- `max` of a nonempty Python list. -/
def listMax : List Rat → Rat
  | [] => 0
  | p :: ps => ps.foldl max p

/-- First-occurrence deduplication: the contents of the Python `set` of
vendor ids (only its size is used). -/
def dedupNat (l : List Nat) : List Nat :=
  l.foldl (fun acc k => if k ∈ acc then acc else acc ++ [k]) []

/-- The `PriceRange.objects.create(...)` call of
`create_route_based_price_ranges` (`route_views.py` lines 163-193), applied
to one group of matches (the matches whose `price_key` equals the group's
key, in match order): `min`/`max`/average of the group's prices, summed
vehicle availability, distinct-vendor count, the chance rule, and the
`route_type` and duration taken from the group's first entry. -/
def make_price_range (e : Enquiry) (grp : List RouteMatch) : PriceRange :=
  let prices := grp.map (total_price e)
  let vehicles_available := (grp.map fun m => m.segment.available_vehicles).foldl (· + ·) 0
  let vendors_count := (dedupNat (grp.map fun m => m.route.vendor)).length
  { min_price := listMin prices
    max_price := listMax prices
    recommended_price := prices.foldl (· + ·) 0 / (prices.length : Rat)
    vehicles_available := vehicles_available
    vendors_count := vendors_count
    chance_of_getting_deal :=
      if 3 ≤ vendors_count ∧ e.number_of_vehicles * 2 ≤ vehicles_available then .high
      else if 2 ≤ vendors_count ∧ e.number_of_vehicles ≤ vehicles_available then .medium
      else .low
    route_type := (grp.head?.map RouteMatch.route_type).getD .direct
    estimated_duration_hours :=
      ((grp.head?.map fun m => m.route.estimated_duration_hours).getD 0) }

/-- `CustomerEnquiryCreateView.create_route_based_price_ranges`
(`route_views.py` lines 137-193).  The Python code buckets the matches into
an insertion-ordered dict keyed by `price_key` (appending each match's data
to its bucket) and then creates one `PriceRange` per bucket; equivalently:
one range per distinct key in first-occurrence order, built from the matches
carrying that key in match order. -/
def create_route_based_price_ranges (e : Enquiry) (ms : List RouteMatch) :
    List PriceRange :=
  (group_keys e ms).map fun k =>
    make_price_range e (ms.filter fun m => price_key e m = k)

/-! ### Derived notions and concrete fixtures -/

/-- No two consecutive negotiations (in creation order) were initiated by
the same party. -/
def alternating (l : List Negotiation) : Prop :=
  List.Chain' (fun a b => a.initiated_by ≠ b.initiated_by) l

/-- A quotation under negotiation: total 100, one customer negotiation at
100, inside its validity window. -/
def sampleQ : Quotation :=
  { id := 1, customer := 1, vendor := 2, total_amount := 100,
    status := .negotiating, created_at := 0, validity_hours := 24,
    negotiations := [{ initiated_by := .customer, proposed_amount := 100 }] }

/-- One hour after `sampleQ` was created, 10:00 IST (5:00 UTC). -/
def sampleNow : Clock := { abs := 1, hour := 5 }

/-- Ten alternating negotiation rounds. -/
def tenNegs : List Negotiation :=
  [{ initiated_by := .customer, proposed_amount := 100 },
   { initiated_by := .vendor, proposed_amount := 100 },
   { initiated_by := .customer, proposed_amount := 100 },
   { initiated_by := .vendor, proposed_amount := 100 },
   { initiated_by := .customer, proposed_amount := 100 },
   { initiated_by := .vendor, proposed_amount := 100 },
   { initiated_by := .customer, proposed_amount := 100 },
   { initiated_by := .vendor, proposed_amount := 100 },
   { initiated_by := .customer, proposed_amount := 100 },
   { initiated_by := .vendor, proposed_amount := 100 }]

/-- `sampleQ` after ten rounds of negotiation. -/
def sampleQ10 : Quotation := { sampleQ with negotiations := tenNegs }

/-- A vendor counter-offer at 90. -/
def sampleNeg : Negotiation := { initiated_by := .vendor, proposed_amount := 90 }

/-- World around `sampleQ`: no order yet, one available truck. -/
def sampleW : OrderWorld :=
  { quotation := sampleQ, orders := [],
    trucks := [{ id := 5, availability_status := .available }], history := [] }

/-- `sampleW` with the quotation already rejected (a final status). -/
def sampleWRejected : OrderWorld :=
  { sampleW with quotation := { sampleQ with status := .rejected } }

/-- A delivered, active order of customer 1 with OTP 123456, its busy truck
and its unavailable driver. -/
def sampleDelivery : DeliveryCtx :=
  { order := { quotation_id := 1, customer := 1, vendor := 2, truck := some 5,
               driver := some 9, total_amount := 90, delivery_otp := 123456,
               is_otp_verified := false, status := .delivered, is_active := true }
    truck := some { id := 5, availability_status := .busy }
    driver := some { id := 9, is_available := false }
    history := [] }

/-- A priced segment: truck type 1 from city "a" to city "b", total price
1000, one vehicle available. -/
def sampleSeg : RouteSeg :=
  { truck_type := 1, from_city := "a", to_city := "b", base_price := 1000,
    fuel_charges := 0, toll_charges := 0, loading_charges := 0,
    unloading_charges := 0, available_vehicles := 1 }

/-- An active direct route of vendor 7 from "a" to "b" carrying
`sampleSeg`. -/
def sampleRoute : Route :=
  { vendor := 7, origin_city := "a", destination_city := "b", stops := [],
    pricing := [sampleSeg], estimated_duration_hours := 5, is_active := true }

/-- An enquiry for one truck of type 1 from "a" to "b". -/
def sampleEnq : Enquiry :=
  { truck_type := 1, number_of_vehicles := 1, pickup_city := "a",
    delivery_city := "b" }

/-- The match `find_matching_routes` produces for `sampleEnq` against
`sampleRoute`. -/
def sampleMatch : RouteMatch :=
  { route := sampleRoute, segment := sampleSeg, route_type := .direct }

/-- The price range generated for that single match. -/
def samplePR : PriceRange :=
  { min_price := 1000, max_price := 1000, recommended_price := 1000,
    vehicles_available := 1, vendors_count := 1,
    chance_of_getting_deal := .low, route_type := .direct,
    estimated_duration_hours := 5 }

/-- The order created by converting `sampleQ` after the vendor's 90
counter-offer is accepted (OTP 123456). -/
def sampleOrder : Order :=
  { quotation_id := 1, customer := 1, vendor := 2, truck := none, driver := none,
    total_amount := 90, delivery_otp := 123456, is_otp_verified := false,
    status := .created, is_active := true }

/-- The world after that conversion. -/
def sampleConvertedW : OrderWorld :=
  { quotation := { sampleQ with total_amount := 90, status := .accepted },
    orders := [sampleOrder],
    trucks := [{ id := 5, availability_status := .available }],
    history := [{ order_quotation_id := 1, previous_status := none,
                  new_status := .created }] }

/-- The result dict of that conversion. -/
def sampleNegResult : NegOrderResult :=
  { base := { order := sampleOrder, delivery_otp := 123456, truck_updated := false,
              status_history_created := true },
    original_amount := 100, final_amount := 90, savings := 10,
    negotiation_accepted := true }

/-- The order created by converting `sampleQ` directly (no negotiated
amount). -/
def sampleOrder100 : Order := { sampleOrder with total_amount := 100 }

/-- The world after converting `sampleQ` directly. -/
def sampleW100 : OrderWorld :=
  { quotation := sampleQ,
    orders := [sampleOrder100],
    trucks := [{ id := 5, availability_status := .available }],
    history := [{ order_quotation_id := 1, previous_status := none,
                  new_status := .created }] }

/-- The result dict of converting `sampleQ` directly. -/
def sampleRes100 : OrderResult :=
  { order := sampleOrder100, delivery_otp := 123456, truck_updated := false,
    status_history_created := true }

/-! ### Helper lemmas about the negotiation validators -/

/-- Branch equation: the amount validation when a prior negotiation
exists. -/
theorem validate_amount_eq_some (q : Quotation) (p : Rat) (role : Role)
    (latest : Negotiation) (hlast : q.negotiations.getLast? = some latest) :
    validate_negotiation_amount_advanced q p role =
      (if p < latest.proposed_amount * (100 - 15) / 100 then some VErr.reduceLimit
       else if latest.proposed_amount * (100 + 15) / 100 < p ∧ role = .customer then
         some VErr.increaseLimit
       else if p < q.total_amount * (1 / 2) then some VErr.floor50
       else none) := by
  unfold validate_negotiation_amount_advanced
  rw [hlast]

/-- Branch equation: the amount validation with no prior negotiation. -/
theorem validate_amount_eq_none (q : Quotation) (p : Rat) (role : Role)
    (hlast : q.negotiations.getLast? = none) :
    validate_negotiation_amount_advanced q p role =
      (if p < q.total_amount * (1 / 2) then some VErr.floor50 else none) := by
  unfold validate_negotiation_amount_advanced
  rw [hlast]

/-- A proposal below half of the quotation's total is always rejected by
`validate_negotiation_amount_advanced` (on one of its rules). -/
theorem validate_amount_floor_some (q : Quotation) (p : Rat) (role : Role)
    (h : p < q.total_amount * (1 / 2)) :
    ∃ e, validate_negotiation_amount_advanced q p role = some e := by
  cases hlast : q.negotiations.getLast? with
  | none => exact ⟨_, by rw [validate_amount_eq_none q p role hlast, if_pos h]⟩
  | some latest =>
      rw [validate_amount_eq_some q p role latest hlast]
      by_cases h1 : p < latest.proposed_amount * (100 - 15) / 100
      · exact ⟨_, if_pos h1⟩
      · by_cases h2 : latest.proposed_amount * (100 + 15) / 100 < p ∧ role = .customer
        · exact ⟨_, by rw [if_neg h1, if_pos h2]⟩
        · exact ⟨_, by rw [if_neg h1, if_neg h2, if_pos h]⟩

/-- If the amount validation passes, the proposal respects the 50% floor. -/
theorem validate_amount_none_floor (q : Quotation) (p : Rat) (role : Role)
    (h : validate_negotiation_amount_advanced q p role = none) :
    q.total_amount * (1 / 2) ≤ p := by
  by_contra hc
  push_neg at hc
  obtain ⟨e, he⟩ := validate_amount_floor_some q p role hc
  rw [he] at h
  cases h

/-- If the sequence validation passes, there are at most 9 negotiations and
the latest one (if any) was not initiated by the acting role. -/
theorem validate_sequence_none (q : Quotation) (role : Role) (now : Clock)
    (h : validate_negotiation_sequence q role now = none) :
    q.negotiations.length ≤ 9 ∧
      q.negotiations.getLast?.map Negotiation.initiated_by ≠ some role := by
  unfold validate_negotiation_sequence at h
  by_cases h10 : 10 ≤ q.negotiations.length
  · rw [if_pos h10] at h; cases h
  · rw [if_neg h10] at h
    refine ⟨by omega, ?_⟩
    by_cases hc : q.negotiations.getLast?.map Negotiation.initiated_by = some role
    · rw [if_pos hc] at h; cases h
    · exact hc

/-- The sequence validation fails whenever 10 rounds are reached or the
latest negotiation was initiated by the acting role. -/
theorem validate_sequence_some (q : Quotation) (role : Role) (now : Clock)
    (h : 10 ≤ q.negotiations.length ∨
      q.negotiations.getLast?.map Negotiation.initiated_by = some role) :
    ∃ e, validate_negotiation_sequence q role now = some e := by
  unfold validate_negotiation_sequence
  by_cases h10 : 10 ≤ q.negotiations.length
  · exact ⟨_, if_pos h10⟩
  · rcases h with h | hc
    · exact absurd h h10
    · exact ⟨_, by rw [if_neg h10, if_pos hc]⟩

/-- If `can_negotiate` passes, the quotation is in a negotiable status, is
not expired, and the sequence validation passes. -/
theorem can_negotiate_none (q : Quotation) (role : Role) (now : Clock)
    (h : can_negotiate q role now = none) :
    (q.status = .pending ∨ q.status = .sent ∨ q.status = .negotiating) ∧
      validate_quotation_expiry q now = false ∧
      validate_negotiation_sequence q role now = none := by
  unfold can_negotiate at h
  by_cases hs : q.status = .pending ∨ q.status = .sent ∨ q.status = .negotiating
  · rw [if_neg (not_not_intro hs)] at h
    by_cases he : validate_quotation_expiry q now = true
    · rw [if_pos he] at h; cases h
    · rw [if_neg he] at h
      exact ⟨hs, by simpa using he, h⟩
  · rw [if_pos hs] at h; cases h

/-- `can_negotiate` fails whenever 10 rounds are reached or the latest
negotiation was initiated by the acting role (whatever the status and the
clock say, some check rejects). -/
theorem can_negotiate_some (q : Quotation) (role : Role) (now : Clock)
    (h : 10 ≤ q.negotiations.length ∨
      q.negotiations.getLast?.map Negotiation.initiated_by = some role) :
    ∃ e, can_negotiate q role now = some e := by
  unfold can_negotiate
  by_cases hs : q.status = .pending ∨ q.status = .sent ∨ q.status = .negotiating
  · rw [if_neg (not_not_intro hs)]
    by_cases he : validate_quotation_expiry q now = true
    · exact ⟨_, if_pos he⟩
    · obtain ⟨e, hseq⟩ := validate_sequence_some q role now h
      exact ⟨e, by rw [if_neg he, hseq]⟩
  · exact ⟨_, if_pos hs⟩

/-- Characterization of a successful `create_negotiation`: both validations
passed and the new negotiation (initiated by the acting role, at the
proposed amount) was appended, with the quotation moved to `negotiating`
and its `total_amount` untouched. -/
theorem create_negotiation_ok (q : Quotation) (role : Role) (p : Rat)
    (now : Clock) (q' : Quotation) (n : Negotiation)
    (h : create_negotiation q role p now = .ok (q', n)) :
    can_negotiate q role now = none ∧
      validate_negotiation_amount_advanced q p role = none ∧
      n.initiated_by = role ∧ n.proposed_amount = p ∧
      q'.negotiations = q.negotiations ++ [n] ∧
      q'.status = .negotiating ∧
      q'.total_amount = q.total_amount := by
  unfold create_negotiation at h
  cases hcn : can_negotiate q role now with
  | some e => rw [hcn] at h; cases h
  | none =>
      rw [hcn] at h
      cases hv : validate_negotiation_amount_advanced q p role with
      | some e => rw [hv] at h; cases h
      | none =>
          rw [hv] at h
          simp only [Except.ok.injEq, Prod.mk.injEq] at h
          obtain ⟨hq, hn⟩ := h
          subst hq
          subst hn
          exact ⟨rfl, rfl, rfl, rfl, rfl, rfl, rfl⟩

/-- Any validation error makes `create_negotiation` fail without recording
anything. -/
theorem create_negotiation_error_of_can_negotiate (q : Quotation) (role : Role)
    (p : Rat) (now : Clock) (e : VErr) (h : can_negotiate q role now = some e) :
    create_negotiation q role p now = .error e := by
  unfold create_negotiation
  rw [h]

/-! ### C1 -/

/-- C1, counterexample.  The claim says a proposal outside the band
[85%, 115%] of the prior offer is rejected for both roles; but with a prior
offer of 100, a *vendor* proposal of 130 > 115 = 115% of the prior offer is
accepted and recorded. -/
theorem C1_counterexample :
    (create_negotiation sampleQ .vendor 130 sampleNow).toOption =
      some ({ sampleQ with
                status := .negotiating,
                negotiations :=
                  [{ initiated_by := .customer, proposed_amount := 100 },
                   { initiated_by := .vendor, proposed_amount := 130 }] },
            { initiated_by := .vendor, proposed_amount := 130 }) ∧
    (100 : Rat) * (100 + 15) / 100 < 130 := by
  constructor
  · norm_num [create_negotiation, can_negotiate, validate_quotation_expiry,
      validate_negotiation_sequence, validate_negotiation_amount_advanced,
      sampleQ, sampleNow, List.getLast?]
    rfl
  · norm_num

/-- C1, amended: with at least one prior negotiation, a proposal below 85%
of the prior offer is rejected (for both roles), and a proposal above 115%
of the prior offer is rejected when the proposer is the customer; in either
case `create_negotiation` raises a validation error, so no negotiation is
recorded. -/
theorem C1_amended (q : Quotation) (role : Role) (p : Rat) (now : Clock)
    (latest : Negotiation) (hlast : q.negotiations.getLast? = some latest)
    (hout : p < latest.proposed_amount * (100 - 15) / 100 ∨
      (latest.proposed_amount * (100 + 15) / 100 < p ∧ role = .customer)) :
    ∃ e, create_negotiation q role p now = .error e := by
  cases hcn : can_negotiate q role now with
  | some e => exact ⟨e, create_negotiation_error_of_can_negotiate q role p now e hcn⟩
  | none =>
      have hv : ∃ e, validate_negotiation_amount_advanced q p role = some e := by
        rw [validate_amount_eq_some q p role latest hlast]
        rcases hout with h1 | ⟨h2, hrole⟩
        · exact ⟨_, if_pos h1⟩
        · by_cases h1 : p < latest.proposed_amount * (100 - 15) / 100
          · exact ⟨_, if_pos h1⟩
          · exact ⟨_, by rw [if_neg h1, if_pos ⟨h2, hrole⟩]⟩
      obtain ⟨e, he⟩ := hv
      refine ⟨e, ?_⟩
      unfold create_negotiation
      rw [hcn, he]

/-- C1, witness for the amended theorem: a vendor proposal of 50 against a
prior offer of 100 is below the 85% bound and is rejected. -/
theorem C1_amended_witness :
    sampleQ.negotiations.getLast? =
        some { initiated_by := Role.customer, proposed_amount := 100 } ∧
      ∃ e, create_negotiation sampleQ .vendor 50 sampleNow = .error e :=
  ⟨rfl, C1_amended sampleQ .vendor 50 sampleNow
    { initiated_by := Role.customer, proposed_amount := 100 } rfl
    (Or.inl (by norm_num))⟩

/-- Characterization of a successful `create_initial_negotiation`: the new
negotiation is appended, the total is untouched, and the recorded amount is
either the quotation's own total (no truthy customer proposal) or an amount
that passed the advanced validation. -/
theorem create_initial_negotiation_ok (q : Quotation) (amt : Option Rat)
    (q' : Quotation) (n : Negotiation)
    (h : create_initial_negotiation q amt = .ok (q', n)) :
    q'.negotiations = q.negotiations ++ [n] ∧
      q'.total_amount = q.total_amount ∧
      (n.proposed_amount = q.total_amount ∨
        validate_negotiation_amount_advanced q n.proposed_amount .customer = none) := by
  cases amt with
  | none =>
      simp only [create_initial_negotiation, Except.ok.injEq, Prod.mk.injEq] at h
      obtain ⟨hq, hn⟩ := h
      subst hq
      subst hn
      exact ⟨rfl, rfl, Or.inl rfl⟩
  | some a =>
      simp only [create_initial_negotiation] at h
      by_cases ha : a = 0
      · rw [if_pos ha] at h
        simp only [Except.ok.injEq, Prod.mk.injEq] at h
        obtain ⟨hq, hn⟩ := h
        subst hq
        subst hn
        exact ⟨rfl, rfl, Or.inl rfl⟩
      · rw [if_neg ha] at h
        cases hct : can_transition_status q.status .negotiating .customer with
        | some e => rw [hct] at h; cases h
        | none =>
            rw [hct] at h
            cases hv : validate_negotiation_amount_advanced q a .customer with
            | some e => rw [hv] at h; cases h
            | none =>
                rw [hv] at h
                simp only [Except.ok.injEq, Prod.mk.injEq] at h
                obtain ⟨hq, hn⟩ := h
                subst hq
                subst hn
                exact ⟨rfl, rfl, Or.inr hv⟩

/-! ### C2 -/

/-- C2: (1) a proposal below 50% of the quotation's `total_amount` makes
`create_negotiation` raise a validation error (no row is created); (2) a
successful `create_negotiation` preserves the invariant that every recorded
negotiation is at least half the total; (3) a successful
`create_initial_negotiation` on a fresh quotation (with nonnegative total)
establishes that invariant.  Together: every negotiation recorded through
the quotation services satisfies `proposed_amount ≥ 0.5 * total_amount`. -/
theorem C2_floor_invariant (q : Quotation) (role : Role) (p : Rat) (now : Clock) :
    (p < q.total_amount * (1 / 2) →
      ∃ e, create_negotiation q role p now = .error e) ∧
    (∀ q' n, create_negotiation q role p now = .ok (q', n) →
      (∀ m ∈ q.negotiations, q.total_amount * (1 / 2) ≤ m.proposed_amount) →
      ∀ m ∈ q'.negotiations, q'.total_amount * (1 / 2) ≤ m.proposed_amount) ∧
    (∀ amt q' n, create_initial_negotiation q amt = .ok (q', n) →
      q.negotiations = [] → 0 ≤ q.total_amount →
      ∀ m ∈ q'.negotiations, q'.total_amount * (1 / 2) ≤ m.proposed_amount) := by
  refine ⟨?_, ?_, ?_⟩
  · intro h
    cases hcn : can_negotiate q role now with
    | some e => exact ⟨e, create_negotiation_error_of_can_negotiate q role p now e hcn⟩
    | none =>
        obtain ⟨e, he⟩ := validate_amount_floor_some q p role h
        refine ⟨e, ?_⟩
        unfold create_negotiation
        rw [hcn, he]
  · intro q' n h hinv m hm
    obtain ⟨_, hv, _, hp, hnegs, _, htot⟩ := create_negotiation_ok q role p now q' n h
    rw [htot]
    rw [hnegs] at hm
    rcases List.mem_append.mp hm with h1 | h2
    · exact hinv m h1
    · have hmn : m = n := by simpa using h2
      rw [hmn, hp]
      exact validate_amount_none_floor q p role hv
  · intro amt q' n h hemp htot m hm
    obtain ⟨hnegs, htoteq, hfloor⟩ := create_initial_negotiation_ok q amt q' n h
    rw [htoteq]
    rw [hnegs, hemp] at hm
    have hmn : m = n := by simpa using hm
    rw [hmn]
    rcases hfloor with h1 | h2
    · rw [h1]; linarith
    · exact validate_amount_none_floor q n.proposed_amount .customer h2

/-- C2, witness: a proposal of 30 against a total of 100 is below the 50%
floor and is rejected. -/
theorem C2_floor_witness :
    ∃ e, create_negotiation sampleQ .vendor 30 sampleNow = .error e :=
  (C2_floor_invariant sampleQ .vendor 30 sampleNow).1 (by norm_num [sampleQ])

/-! ### C5 -/

/-- C5: (1) when the latest negotiation was initiated by the acting role, a
new negotiation by that same role is rejected with a validation error; (2)
consequently a successful `create_negotiation` preserves the alternation
invariant: no two consecutive negotiations (in creation order) initiated by
the same party. -/
theorem C5_alternation (q : Quotation) (role : Role) (p : Rat) (now : Clock) :
    (∀ latest, q.negotiations.getLast? = some latest →
      latest.initiated_by = role →
      ∃ e, create_negotiation q role p now = .error e) ∧
    (∀ q' n, create_negotiation q role p now = .ok (q', n) →
      alternating q.negotiations → alternating q'.negotiations) := by
  constructor
  · intro latest hlast hrole
    obtain ⟨e, he⟩ := can_negotiate_some q role now
      (Or.inr (by rw [hlast, Option.map_some', hrole]))
    exact ⟨e, create_negotiation_error_of_can_negotiate q role p now e he⟩
  · intro q' n h halt
    obtain ⟨hcn, _, hinit, _, hnegs, _, _⟩ := create_negotiation_ok q role p now q' n h
    obtain ⟨_, _, hseq⟩ := can_negotiate_none q role now hcn
    obtain ⟨_, hnc⟩ := validate_sequence_none q role now hseq
    rw [hnegs]
    unfold alternating at halt ⊢
    rw [List.chain'_append]
    refine ⟨halt, List.chain'_singleton n, ?_⟩
    intro x hx y hy
    simp only [List.head?_cons, Option.mem_def, Option.some.injEq] at hy
    subst hy
    rw [hinit]
    intro hcontra
    apply hnc
    rw [Option.mem_def] at hx
    rw [hx, Option.map_some', hcontra]

/-- C5, witness: appending the vendor round at 130 to `sampleQ` (latest round
was the customer's) keeps the negotiation sequence alternating. -/
theorem C5_alternation_witness :
    alternating
      (sampleQ.negotiations ++ [{ initiated_by := Role.vendor, proposed_amount := 130 }]) := by
  have h : create_negotiation sampleQ .vendor 130 sampleNow =
      .ok ({ sampleQ with
               status := .negotiating,
               negotiations := sampleQ.negotiations ++
                 [{ initiated_by := Role.vendor, proposed_amount := 130 }] },
           { initiated_by := Role.vendor, proposed_amount := 130 }) := by
    norm_num [create_negotiation, can_negotiate, validate_quotation_expiry,
      validate_negotiation_sequence, validate_negotiation_amount_advanced,
      sampleQ, sampleNow, List.getLast?]
    rfl
  exact (C5_alternation sampleQ .vendor 130 sampleNow).2 _ _ h
    (by unfold alternating sampleQ; exact List.chain'_singleton _)

/-! ### C10 -/

/-- C10: once a quotation has 10 (or more) negotiations, `can_negotiate`
rejects (for any role and clock) and `create_negotiation` raises a
validation error without recording anything; a successful
`create_negotiation` was therefore run with at most 9 existing rounds and
adds exactly one, so the negotiation count stays at most 10 for quotations
negotiated only through the service. -/
theorem C10_negotiation_cap (q : Quotation) (role : Role) (p : Rat) (now : Clock) :
    (10 ≤ q.negotiations.length → ∃ e, can_negotiate q role now = some e) ∧
    (10 ≤ q.negotiations.length →
      ∃ e, create_negotiation q role p now = .error e) ∧
    (∀ q' n, create_negotiation q role p now = .ok (q', n) →
      q.negotiations.length ≤ 9 ∧
        q'.negotiations.length = q.negotiations.length + 1) ∧
    (∀ q' n, create_negotiation q role p now = .ok (q', n) →
      q.negotiations.length ≤ 10 → q'.negotiations.length ≤ 10) := by
  have hcap : ∀ q' n, create_negotiation q role p now = .ok (q', n) →
      q.negotiations.length ≤ 9 ∧
        q'.negotiations.length = q.negotiations.length + 1 := by
    intro q' n h
    obtain ⟨hcn, _, _, _, hnegs, _, _⟩ := create_negotiation_ok q role p now q' n h
    obtain ⟨_, _, hseq⟩ := can_negotiate_none q role now hcn
    obtain ⟨hlen, _⟩ := validate_sequence_none q role now hseq
    refine ⟨hlen, ?_⟩
    rw [hnegs, List.length_append, List.length_singleton]
  refine ⟨?_, ?_, hcap, ?_⟩
  · intro h10
    exact can_negotiate_some q role now (Or.inl h10)
  · intro h10
    obtain ⟨e, he⟩ := can_negotiate_some q role now (Or.inl h10)
    exact ⟨e, create_negotiation_error_of_can_negotiate q role p now e he⟩
  · intro q' n h h10
    obtain ⟨h9, hlen⟩ := hcap q' n h
    omega

/-- C10, witness: with ten rounds recorded, `can_negotiate` rejects. -/
theorem C10_negotiation_cap_witness :
    ∃ e, can_negotiate sampleQ10 .vendor sampleNow = some e :=
  (C10_negotiation_cap sampleQ10 .vendor 100 sampleNow).1
    (by norm_num [sampleQ10, tenNegs])

/-! ### C4 -/

/-- C4, counterexample.  The claim says accepted/rejected/expired are final
for *every* status-changing operation and that only the customer role can
reach `accepted`; but `QuotationStatusService.accept_negotiation` bypasses
`can_transition_status`: acting as user 2 - the *vendor* - on a quotation
whose status is `rejected` (a final status, still in its validity window)
succeeds and leaves the quotation `accepted`. -/
theorem C4_counterexample :
    sampleWRejected.quotation.status = QStatus.rejected ∧
    sampleWRejected.quotation.vendor = 2 ∧
    (accept_negotiation sampleWRejected sampleNeg 2 111111 sampleNow).2.toOption.isSome
      = true ∧
    (accept_negotiation sampleWRejected sampleNeg 2 111111 sampleNow).1.quotation.status
      = QStatus.accepted := by
  refine ⟨rfl, rfl, ?_, ?_⟩
  · norm_num [accept_negotiation, create_order_from_negotiation,
      create_order_from_quotation, validate_order_creation,
      sampleWRejected, sampleW, sampleQ, sampleNeg, sampleNow]
    rfl
  · norm_num [accept_negotiation, create_order_from_negotiation,
      create_order_from_quotation, validate_order_creation,
      sampleWRejected, sampleW, sampleQ, sampleNeg, sampleNow]

/-- C4, amended: for the operations that are guarded by
`QuotationStatusValidator.can_transition_status` the claim holds -
(1) from a final status (`accepted`/`rejected`/`expired`) every transition
is refused; (2) a transition that passes with target `accepted` was
requested by the customer role; (3) `QuotationStatusService.update_status`
therefore fails on final-status quotations; (4) a successful
`create_negotiation` acted on a non-final quotation and only moves it to
`negotiating`.  (`accept_negotiation` and the order-conversion path bypass
these guards, per the counterexample.) -/
theorem C4_amended :
    (∀ fromS toS role,
      (fromS = QStatus.accepted ∨ fromS = QStatus.rejected ∨ fromS = QStatus.expired) →
      ∃ e, can_transition_status fromS toS role = some e) ∧
    (∀ fromS toS role, can_transition_status fromS toS role = none →
      toS = QStatus.accepted → role = Role.customer) ∧
    (∀ q toS role,
      (q.status = QStatus.accepted ∨ q.status = QStatus.rejected ∨
        q.status = QStatus.expired) →
      ∃ e, update_status q toS role = .error e) ∧
    (∀ q role p now q' n, create_negotiation q role p now = .ok (q', n) →
      ¬(q.status = QStatus.accepted ∨ q.status = QStatus.rejected ∨
          q.status = QStatus.expired) ∧
        q'.status = QStatus.negotiating) := by
  have h1 : ∀ fromS toS role,
      (fromS = QStatus.accepted ∨ fromS = QStatus.rejected ∨ fromS = QStatus.expired) →
      ∃ e, can_transition_status fromS toS role = some e := by
    intro fromS toS role hf
    have hall : allowed_transitions fromS = [] := by
      rcases hf with h | h | h <;> rw [h] <;> rfl
    exact ⟨VErr.invalidTransition, by
      unfold can_transition_status
      rw [if_pos (show toS ∉ allowed_transitions fromS by
        rw [hall]; exact List.not_mem_nil toS)]⟩
  refine ⟨h1, ?_, ?_, ?_⟩
  · intro fromS toS role h htoS
    unfold can_transition_status at h
    by_cases hmem : toS ∉ allowed_transitions fromS
    · rw [if_pos hmem] at h; cases h
    · rw [if_neg hmem] at h
      by_cases hacc : toS = QStatus.accepted ∧ role ≠ Role.customer
      · rw [if_pos hacc] at h; cases h
      · by_contra hrole
        exact hacc ⟨htoS, hrole⟩
  · intro q toS role hf
    obtain ⟨e, he⟩ := h1 q.status toS role hf
    exact ⟨e, by unfold update_status; rw [he]⟩
  · intro q role p now q' n h
    obtain ⟨hcn, _, _, _, _, hstat, _⟩ := create_negotiation_ok q role p now q' n h
    obtain ⟨hs, _, _⟩ := can_negotiate_none q role now hcn
    refine ⟨?_, hstat⟩
    rcases hs with h' | h' | h' <;> rw [h'] <;> simp

/-- C4, witness for the amended theorem: from `rejected` the transition to
`accepted` is refused (even for the customer). -/
theorem C4_amended_witness :
    ∃ e, can_transition_status QStatus.rejected QStatus.accepted Role.customer = some e :=
  C4_amended.1 QStatus.rejected QStatus.accepted Role.customer (Or.inr (Or.inl rfl))

/-! ### Helper lemmas about order creation -/

/-- A wrong user, an existing order, or an expired quotation always makes
`_validate_order_creation` fail. -/
theorem validate_order_some_of (q : Quotation) (user : Nat) (orders : List Order)
    (now : Clock)
    (h : ¬(q.customer = user ∨ q.vendor = user) ∨
      (orders.any fun o => o.quotation_id = q.id) = true ∨
      q.created_at + q.validity_hours < now.abs) :
    ∃ e, validate_order_creation q user orders now = some e := by
  unfold validate_order_creation
  by_cases hu : q.customer = user ∨ q.vendor = user
  · rw [if_neg (not_not_intro hu)]
    by_cases hstat : ¬(q.status = .accepted ∨ q.status = .negotiating)
    · exact ⟨_, if_pos hstat⟩
    · rw [if_neg hstat]
      by_cases hord : (orders.any fun o => o.quotation_id = q.id) = true
      · exact ⟨_, if_pos hord⟩
      · rw [if_neg hord]
        rcases h with h | h | h
        · exact absurd hu h
        · exact absurd h hord
        · exact ⟨_, if_pos h⟩
  · exact ⟨_, if_pos hu⟩

/-- If order validation passes, the user is a party to the quotation, the
status is convertible, no order exists for it, and it is not expired. -/
theorem validate_order_none (q : Quotation) (user : Nat) (orders : List Order)
    (now : Clock) (h : validate_order_creation q user orders now = none) :
    (q.customer = user ∨ q.vendor = user) ∧
      (q.status = .accepted ∨ q.status = .negotiating) ∧
      (∀ o ∈ orders, ¬o.quotation_id = q.id) ∧
      ¬(q.created_at + q.validity_hours < now.abs) := by
  unfold validate_order_creation at h
  by_cases hu : ¬(q.customer = user ∨ q.vendor = user)
  · rw [if_pos hu] at h; cases h
  · rw [if_neg hu] at h
    by_cases hstat : ¬(q.status = .accepted ∨ q.status = .negotiating)
    · rw [if_pos hstat] at h; cases h
    · rw [if_neg hstat] at h
      by_cases hord : (orders.any fun o => o.quotation_id = q.id) = true
      · rw [if_pos hord] at h; cases h
      · rw [if_neg hord] at h
        by_cases hexp : q.created_at + q.validity_hours < now.abs
        · rw [if_pos hexp] at h; cases h
        · refine ⟨not_not.mp hu, not_not.mp hstat, ?_, hexp⟩
          intro o ho hoq
          exact hord (List.any_eq_true.mpr ⟨o, ho, by simp [hoq]⟩)

/-- `create_order_from_quotation` returns its input world untouched when the
validation fails (`@transaction.atomic`). -/
theorem create_order_from_quotation_error (w : OrderWorld) (user otp : Nat)
    (now : Clock) (e : VErr)
    (h : validate_order_creation w.quotation user w.orders now = some e) :
    create_order_from_quotation w user otp now = (w, .error e) := by
  unfold create_order_from_quotation
  rw [h]

/-- Characterization of a successful `create_order_from_quotation`: the
validation passed and exactly the documented order row (with `truck = none`),
history entry and result dict (`truck_updated = false`) were produced, the
truck table and quotation untouched. -/
theorem create_order_from_quotation_spec (w : OrderWorld) (user otp : Nat)
    (now : Clock) (w' : OrderWorld) (res : OrderResult)
    (h : create_order_from_quotation w user otp now = (w', .ok res)) :
    validate_order_creation w.quotation user w.orders now = none ∧
      res.order = { quotation_id := w.quotation.id,
                    customer := w.quotation.customer,
                    vendor := w.quotation.vendor,
                    truck := none, driver := none,
                    total_amount := w.quotation.total_amount,
                    delivery_otp := otp, is_otp_verified := false,
                    status := .created, is_active := true } ∧
      res.truck_updated = false ∧
      w'.orders = w.orders ++ [res.order] ∧
      w'.history = w.history ++ [{ order_quotation_id := w.quotation.id,
                                   previous_status := none,
                                   new_status := .created }] ∧
      w'.trucks = w.trucks ∧
      w'.quotation = w.quotation := by
  unfold create_order_from_quotation at h
  cases hv : validate_order_creation w.quotation user w.orders now with
  | some e => rw [hv] at h; simp at h
  | none =>
      rw [hv] at h
      simp only [Prod.mk.injEq, Except.ok.injEq] at h
      obtain ⟨hw, hres⟩ := h
      subst hw
      subst hres
      exact ⟨rfl, rfl, rfl, rfl, rfl, rfl, rfl⟩

/-! ### C3 -/

/-- C3: converting a negotiation into an order is atomic.  If the acting
user is neither the quotation's customer nor its vendor, or an order already
exists for the quotation, or the quotation has passed its validity window,
then `create_order_from_negotiation` returns a validation error and the
whole world - in particular the quotation's `total_amount` and `status` -
is unchanged.  On success the orders for the quotation are exactly the one
created order, together with its initial `created` history entry. -/
theorem C3_atomic_conversion (w : OrderWorld) (neg : Negotiation) (user otp : Nat)
    (now : Clock) :
    ((¬(w.quotation.customer = user ∨ w.quotation.vendor = user) ∨
      (w.orders.any fun o => o.quotation_id = w.quotation.id) = true ∨
      w.quotation.created_at + w.quotation.validity_hours < now.abs) →
      ∃ e, create_order_from_negotiation w neg user otp now = (w, .error e)) ∧
    (∀ w' res, create_order_from_negotiation w neg user otp now = (w', .ok res) →
      (w'.orders.filter fun o => o.quotation_id = w.quotation.id) = [res.base.order] ∧
      w'.history = w.history ++ [{ order_quotation_id := w.quotation.id,
                                   previous_status := none,
                                   new_status := OStatus.created }]) := by
  constructor
  · intro hbad
    obtain ⟨e, he⟩ := validate_order_some_of
      { w.quotation with
          total_amount := neg.proposed_amount
          status := QStatus.accepted }
      user w.orders now (by exact hbad)
    refine ⟨e, ?_⟩
    unfold create_order_from_negotiation
    rw [create_order_from_quotation_error
      { w with
          quotation := { w.quotation with
                           total_amount := neg.proposed_amount
                           status := QStatus.accepted } }
      user otp now e (by exact he)]
  · intro w' res h
    unfold create_order_from_negotiation at h
    cases hin : create_order_from_quotation
        { w with
            quotation := { w.quotation with
                             total_amount := neg.proposed_amount
                             status := QStatus.accepted } }
        user otp now with
    | mk w3 r =>
        rw [hin] at h
        cases r with
        | error e => simp at h
        | ok res0 =>
            simp only [Prod.mk.injEq, Except.ok.injEq] at h
            obtain ⟨hw3, hres⟩ := h
            subst hw3
            subst hres
            obtain ⟨hv, horder, _, horders, hhist, _, _⟩ :=
              create_order_from_quotation_spec _ user otp now _ res0 hin
            obtain ⟨_, _, hnoord, _⟩ := validate_order_none _ user _ now hv
            constructor
            · rw [horders]
              dsimp only at hnoord ⊢
              rw [List.filter_append]
              have h1 : (w.orders.filter fun o => o.quotation_id = w.quotation.id)
                  = [] :=
                List.filter_eq_nil_iff.mpr (by
                  intro o ho
                  simpa using hnoord o ho)
              rw [h1]
              have h2 : res0.order.quotation_id = w.quotation.id := by
                rw [horder]
              simp [h2]
            · rw [hhist]

/-- C3, witness: a stranger (user 99) cannot convert; the world is returned
unchanged with a validation error. -/
theorem C3_atomic_witness :
    ∃ e, create_order_from_negotiation sampleW sampleNeg 99 111111 sampleNow =
      (sampleW, .error e) :=
  (C3_atomic_conversion sampleW sampleNeg 99 111111 sampleNow).1
    (Or.inl (by norm_num [sampleW, sampleQ]))

/-! ### C9 -/

/-- C9: when `create_order_from_negotiation` succeeds, the created order's
`total_amount` equals the accepted negotiation's `proposed_amount` (the
quotation's total is overwritten before the order copies it), and the
reported `savings` equal the quotation's original amount minus the
negotiated amount. -/
theorem C9_negotiated_amount (w : OrderWorld) (neg : Negotiation) (user otp : Nat)
    (now : Clock) (w' : OrderWorld) (res : NegOrderResult)
    (h : create_order_from_negotiation w neg user otp now = (w', .ok res)) :
    res.base.order.total_amount = neg.proposed_amount ∧
      res.savings = w.quotation.total_amount - neg.proposed_amount := by
  unfold create_order_from_negotiation at h
  cases hin : create_order_from_quotation
      { w with
          quotation := { w.quotation with
                           total_amount := neg.proposed_amount
                           status := QStatus.accepted } }
      user otp now with
  | mk w3 r =>
      rw [hin] at h
      cases r with
      | error e => simp at h
      | ok res0 =>
          simp only [Prod.mk.injEq, Except.ok.injEq] at h
          obtain ⟨hw3, hres⟩ := h
          subst hw3
          subst hres
          obtain ⟨_, horder, _, _, _, _, _⟩ :=
            create_order_from_quotation_spec _ user otp now _ res0 hin
          exact ⟨by rw [horder], rfl⟩

/-- C9, witness: accepting the vendor's 90 counter-offer on a 100 quotation
creates an order at 90 and reports savings of 10. -/
theorem C9_negotiated_amount_witness :
    sampleNegResult.base.order.total_amount = sampleNeg.proposed_amount ∧
      sampleNegResult.savings =
        sampleW.quotation.total_amount - sampleNeg.proposed_amount := by
  have h : create_order_from_negotiation sampleW sampleNeg 1 123456 sampleNow =
      (sampleConvertedW, .ok sampleNegResult) := by
    norm_num [create_order_from_negotiation, create_order_from_quotation,
      validate_order_creation, sampleW, sampleQ, sampleNeg, sampleNow,
      sampleConvertedW, sampleOrder, sampleNegResult]
  exact C9_negotiated_amount sampleW sampleNeg 1 123456 sampleNow _ _ h

/-! ### C7 -/

/-- C7, counterexample.  The claim says a successful
`create_order_from_quotation` sets the order's truck busy and reports
`truck_updated` accordingly; but a successful call on a world with one
available truck creates the order with *no* truck, reports
`truck_updated = false`, and leaves the truck table untouched (still
`available`, not `busy`). -/
theorem C7_counterexample :
    ((create_order_from_quotation sampleW 1 123456 sampleNow).2.toOption.map
        fun r => (r.truck_updated, r.order.truck)) = some (false, none) ∧
    (create_order_from_quotation sampleW 1 123456 sampleNow).1.trucks =
      [{ id := 5, availability_status := AvailStatus.available }] := by
  constructor
  · norm_num [create_order_from_quotation, validate_order_creation,
      sampleW, sampleQ, sampleNow]
    exact ⟨_, rfl, rfl, rfl⟩
  · norm_num [create_order_from_quotation, validate_order_creation,
      sampleW, sampleQ, sampleNow]

/-- C7, amended: every successful `create_order_from_quotation` creates the
order with `truck = None` ("truck will be assigned later"), reports
`truck_updated = false`, and changes no truck's availability - the
`'busy'` update is dead code behind `if order.truck`. -/
theorem C7_amended (w : OrderWorld) (user otp : Nat) (now : Clock)
    (w' : OrderWorld) (res : OrderResult)
    (h : create_order_from_quotation w user otp now = (w', .ok res)) :
    res.order.truck = none ∧ res.truck_updated = false ∧ w'.trucks = w.trucks := by
  obtain ⟨_, horder, hupd, _, _, htr, _⟩ :=
    create_order_from_quotation_spec w user otp now w' res h
  exact ⟨by rw [horder], hupd, htr⟩

/-- C7, witness for the amended theorem, at the concrete successful
conversion of `sampleQ`. -/
theorem C7_amended_witness :
    sampleRes100.order.truck = none ∧ sampleRes100.truck_updated = false ∧
      sampleW100.trucks = sampleW.trucks := by
  have h : create_order_from_quotation sampleW 1 123456 sampleNow =
      (sampleW100, .ok sampleRes100) := by
    norm_num [create_order_from_quotation, validate_order_creation,
      sampleW, sampleQ, sampleNow, sampleW100, sampleOrder100, sampleOrder,
      sampleRes100]
  exact C7_amended sampleW 1 123456 sampleNow _ _ h

/-! ### C6 -/

/-- Branch equation: the delivery-verification lookup fails. -/
theorem dvp_eq_notFound (s : DeliveryCtx) (user otp : Nat)
    (h : ¬(s.order.customer = user ∧ s.order.status = .delivered ∧
        s.order.is_active = true)) :
    delivery_verification_post s user otp = (s, .notFound) := by
  unfold delivery_verification_post
  rw [if_pos h]

/-- Branch equation: the OTP does not match. -/
theorem dvp_eq_invalidOtp (s : DeliveryCtx) (user otp : Nat)
    (hg : s.order.customer = user ∧ s.order.status = .delivered ∧
      s.order.is_active = true)
    (h : s.order.delivery_otp ≠ otp) :
    delivery_verification_post s user otp = (s, .invalidOtp) := by
  unfold delivery_verification_post
  rw [if_neg (not_not_intro hg), if_pos h]

/-- Branch equation: verification succeeds (the order has a truck). -/
theorem dvp_eq_ok (s : DeliveryCtx) (user otp : Nat) (t : Truck)
    (ht : s.truck = some t)
    (hg : s.order.customer = user ∧ s.order.status = .delivered ∧
      s.order.is_active = true)
    (hotp : s.order.delivery_otp = otp) :
    delivery_verification_post s user otp =
      ({ order := { s.order with is_otp_verified := true, status := .completed }
         truck := some { t with availability_status := .available }
         driver := s.driver.map fun d => { d with is_available := true }
         history := s.history ++
           [{ order_quotation_id := s.order.quotation_id
              previous_status := some .delivered
              new_status := .completed }] }, .ok) := by
  unfold delivery_verification_post
  rw [if_neg (not_not_intro hg), if_neg (not_not_intro hotp), ht]

/-- Branch equation: the OTP matches but the order has no truck - the order
is saved as completed/verified and then the view crashes dereferencing
`order.truck`. -/
theorem dvp_eq_crash (s : DeliveryCtx) (user otp : Nat)
    (ht : s.truck = none)
    (hg : s.order.customer = user ∧ s.order.status = .delivered ∧
      s.order.is_active = true)
    (hotp : s.order.delivery_otp = otp) :
    delivery_verification_post s user otp =
      ({ s with
           order := { s.order with
                        is_otp_verified := true
                        status := .completed } }, .attributeCrash) := by
  unfold delivery_verification_post
  rw [if_neg (not_not_intro hg), if_neg (not_not_intro hotp), ht]

/-- C6: delivery confirmation is OTP-gated.  (1) If the endpoint leaves the
order `completed`, either it already was, or the order belonged to the
requesting customer, was active and `delivered`, and the submitted OTP
matched; (2) on an OTP mismatch the response is an error and the state - in
particular the order's `status` and `is_otp_verified` - is unchanged; (3) on
success the order becomes `completed` and OTP-verified, the order's truck is
marked available, and the driver is marked available exactly when one is
assigned. -/
theorem C6_otp_gated (s : DeliveryCtx) (user otp : Nat) :
    ((delivery_verification_post s user otp).1.order.status = OStatus.completed →
      s.order.status = OStatus.completed ∨
        (s.order.customer = user ∧ s.order.status = OStatus.delivered ∧
          s.order.is_active = true ∧ s.order.delivery_otp = otp)) ∧
    (s.order.customer = user → s.order.status = OStatus.delivered →
      s.order.is_active = true → s.order.delivery_otp ≠ otp →
      delivery_verification_post s user otp = (s, DVResp.invalidOtp)) ∧
    (∀ t, s.truck = some t → s.order.customer = user →
      s.order.status = OStatus.delivered → s.order.is_active = true →
      s.order.delivery_otp = otp →
      (delivery_verification_post s user otp).2 = DVResp.ok ∧
      (delivery_verification_post s user otp).1.order.status = OStatus.completed ∧
      (delivery_verification_post s user otp).1.order.is_otp_verified = true ∧
      (delivery_verification_post s user otp).1.truck =
        some { t with availability_status := AvailStatus.available } ∧
      (∀ d, s.driver = some d →
        (delivery_verification_post s user otp).1.driver =
          some { d with is_available := true }) ∧
      (s.driver = none →
        (delivery_verification_post s user otp).1.driver = none)) := by
  refine ⟨?_, ?_, ?_⟩
  · intro hdone
    by_cases hg : s.order.customer = user ∧ s.order.status = .delivered ∧
        s.order.is_active = true
    · by_cases hotp : s.order.delivery_otp = otp
      · exact Or.inr ⟨hg.1, hg.2.1, hg.2.2, hotp⟩
      · rw [dvp_eq_invalidOtp s user otp hg hotp] at hdone
        exact Or.inl hdone
    · rw [dvp_eq_notFound s user otp hg] at hdone
      exact Or.inl hdone
  · intro h1 h2 h3 h4
    exact dvp_eq_invalidOtp s user otp ⟨h1, h2, h3⟩ h4
  · intro t ht h1 h2 h3 h4
    rw [dvp_eq_ok s user otp t ht ⟨h1, h2, h3⟩ h4]
    refine ⟨rfl, rfl, rfl, rfl, ?_, ?_⟩
    · intro d hd
      rw [hd]
      rfl
    · intro hd
      rw [hd]
      rfl

/-- C6, witness: customer 1 verifies the delivered order with the correct
OTP 123456; the order completes, the truck and the driver become
available. -/
theorem C6_otp_gated_witness :
    (delivery_verification_post sampleDelivery 1 123456).2 = DVResp.ok ∧
      (delivery_verification_post sampleDelivery 1 123456).1.order.status
        = OStatus.completed ∧
      (delivery_verification_post sampleDelivery 1 123456).1.order.is_otp_verified
        = true ∧
      (delivery_verification_post sampleDelivery 1 123456).1.truck =
        some { id := 5, availability_status := AvailStatus.available } ∧
      (∀ d, sampleDelivery.driver = some d →
        (delivery_verification_post sampleDelivery 1 123456).1.driver =
          some { d with is_available := true }) ∧
      (sampleDelivery.driver = none →
        (delivery_verification_post sampleDelivery 1 123456).1.driver = none) :=
  (C6_otp_gated sampleDelivery 1 123456).2.2
    { id := 5, availability_status := AvailStatus.busy } rfl rfl rfl rfl rfl

/-! ### C8 -/

/-- Every key of the `price_groups` dict is the `price_key` of some match. -/
theorem mem_group_keys (e : Enquiry) (ms : List RouteMatch) (k : Int)
    (hk : k ∈ group_keys e ms) : ∃ m ∈ ms, price_key e m = k := by
  have aux : ∀ (l : List RouteMatch) (acc : List Int),
      k ∈ l.foldl (fun acc m =>
        if price_key e m ∈ acc then acc else acc ++ [price_key e m]) acc →
      k ∈ acc ∨ ∃ m ∈ l, price_key e m = k := by
    intro l
    induction l with
    | nil => intro acc h; exact Or.inl h
    | cons m t ih =>
        intro acc h
        rw [List.foldl_cons] at h
        rcases ih _ h with h' | h'
        · by_cases hc : price_key e m ∈ acc
          · rw [if_pos hc] at h'
            exact Or.inl h'
          · rw [if_neg hc] at h'
            rcases List.mem_append.mp h' with h'' | h''
            · exact Or.inl h''
            · refine Or.inr ⟨m, List.mem_cons_self m t, ?_⟩
              exact (List.mem_singleton.mp h'').symm
        · obtain ⟨m', hm', hk'⟩ := h'
          exact Or.inr ⟨m', List.mem_cons_of_mem m hm', hk'⟩
  rcases aux ms [] hk with h | h
  · cases h
  · exact h

/-- C8: every price range produced for an enquiry comes from one bucket of
matches - those sharing its `price_key` - and its `min_price`/`max_price`
are the minimum/maximum over that bucket of the segment's total price
(base + fuel + toll + loading + unloading charges, via `get_total_price`)
times the enquiry's `number_of_vehicles`; and every matched segment is of
the enquiry's requested truck type. -/
theorem C8_price_bands (e : Enquiry) (routes : List Route) (pr : PriceRange)
    (hpr : pr ∈ create_route_based_price_ranges e (find_matching_routes routes e)) :
    (∀ m ∈ find_matching_routes routes e, m.segment.truck_type = e.truck_type) ∧
    ∃ k,
      ((find_matching_routes routes e).filter fun m => price_key e m = k) ≠ [] ∧
      pr.min_price = listMin (((find_matching_routes routes e).filter
        fun m => price_key e m = k).map (total_price e)) ∧
      pr.max_price = listMax (((find_matching_routes routes e).filter
        fun m => price_key e m = k).map (total_price e)) := by
  constructor
  · intro m hm
    unfold find_matching_routes at hm
    rw [List.mem_filterMap] at hm
    obtain ⟨r, hr, hf⟩ := hm
    cases hfind : (r.pricing.filter fun s => s.truck_type = e.truck_type).find?
        (fun s => segment_city_match e r s) with
    | none => rw [hfind] at hf; cases hf
    | some s =>
        rw [hfind] at hf
        simp only [Option.some.injEq] at hf
        subst hf
        have hs := List.mem_of_find?_eq_some hfind
        have hst := (List.mem_filter.mp hs).2
        exact of_decide_eq_true hst
  · unfold create_route_based_price_ranges at hpr
    rw [List.mem_map] at hpr
    obtain ⟨k, hk, hmk⟩ := hpr
    subst hmk
    refine ⟨k, ?_, rfl, rfl⟩
    obtain ⟨m, hm, hkey⟩ := mem_group_keys e _ k hk
    have hmem : m ∈ (find_matching_routes routes e).filter
        fun m => price_key e m = k :=
      List.mem_filter.mpr ⟨hm, by simp [hkey]⟩
    exact List.ne_nil_of_mem hmem

/-- Python's `round` on an exact integer value is that integer. -/
theorem pythonRound_intCast (n : Int) : pythonRound ((n : Rat)) = n := by
  unfold pythonRound
  rw [Int.floor_intCast]
  norm_num

/-- C8, witness: the single match of `sampleEnq` against `sampleRoute` is
priced at 1000, grouped under key 1000, and yields the one price range
`samplePR` with `min_price = max_price = 1000`. -/
theorem C8_price_bands_witness :
    (∀ m ∈ find_matching_routes [sampleRoute] sampleEnq,
      m.segment.truck_type = sampleEnq.truck_type) ∧
    ∃ k,
      ((find_matching_routes [sampleRoute] sampleEnq).filter
        fun m => price_key sampleEnq m = k) ≠ [] ∧
      samplePR.min_price = listMin (((find_matching_routes [sampleRoute] sampleEnq).filter
        fun m => price_key sampleEnq m = k).map (total_price sampleEnq)) ∧
      samplePR.max_price = listMax (((find_matching_routes [sampleRoute] sampleEnq).filter
        fun m => price_key sampleEnq m = k).map (total_price sampleEnq)) := by
  have hfind : find_matching_routes [sampleRoute] sampleEnq = [sampleMatch] := by rfl
  have htot : total_price sampleEnq sampleMatch = 1000 := by
    norm_num [total_price, get_total_price, sampleMatch, sampleSeg, sampleEnq]
  have hkey : price_key sampleEnq sampleMatch = 1000 := by
    unfold price_key
    rw [htot]
    rw [show (1000 : Rat) / 500 = ((2 : Int) : Rat) by norm_num]
    rw [pythonRound_intCast]
    norm_num
  have hgk : group_keys sampleEnq [sampleMatch] = [1000] := by
    unfold group_keys
    rw [List.foldl_cons, List.foldl_nil]
    simp [hkey]
  have hflt : ([sampleMatch].filter fun m => price_key sampleEnq m = 1000)
      = [sampleMatch] := by
    simp [hkey]
  have hmk : make_price_range sampleEnq [sampleMatch] = samplePR := by
    unfold make_price_range listMin listMax dedupNat
    norm_num [samplePR, sampleMatch, sampleRoute, sampleSeg, sampleEnq,
      total_price, get_total_price]
  have hout : create_route_based_price_ranges sampleEnq [sampleMatch]
      = [samplePR] := by
    unfold create_route_based_price_ranges
    rw [hgk, List.map_cons, List.map_nil, hflt, hmk]
  exact C8_price_bands sampleEnq [sampleRoute] samplePR
    (by rw [hfind, hout]; exact List.mem_singleton.mpr rfl)

end TruckApi
